import Mathlib

/-!
Shallow embedding of the PVE Provisioning Daemon's identifier-allocation
subsystem (`src/utils/helpers.ts`, class `VMIdManager`) and of its
provisioning orchestration pipeline (`src/services/vmProvisioningService.ts`,
class `VMProvisioningService`), together with the configuration merge from
`src/config/configManager.ts`.

Modelling conventions:
* JS numbers that hold VM identifiers and counters are modelled as `Int`
  (JS `parseInt` can produce negative values, which the source does not
  guard against).
* A JS `Set<number>` is modelled as a `List Int` with `List.insert`
  (membership is the only operation the source uses besides `size`).
* File-system and command-line effects are passed in explicitly: the
  persisted counter file is an `Option String` (`none` = missing or
  unreadable), the per-candidate existence probe (`quickIdCheck`) is a
  function `Int → Bool`, and the three cache-discovery tiers are
  `Except Unit (List Int)` values giving either failure or the list of
  vmids the tier reports (the JSON / line / directory parsing that
  extracts those vmids is abstracted to the extracted list).
* `Date.now()` is passed in as an explicit `now : Int` (milliseconds).
-/

namespace PVE

/-! ## A model of the JavaScript string/number conversions used by the source

`VMIdManager.initializeVMId` runs `parseInt(data.trim()) || 1001` on the
persisted counter file and `VMIdManager.saveVMId` writes
`this.nextId!.toString()`.  We model `String.prototype.trim`, `parseInt`
(default radix, including its hexadecimal `0x` prefix detection, leading
whitespace skipping and trailing-garbage tolerance, with `none` playing the
role of `NaN`) and `Number.prototype.toString` for integers. -/

/-- ASCII whitespace recognised by the model of JS `trim` / `parseInt`
(the JS originals accept a few more exotic code points, which cannot occur
in files the daemon itself writes). -/
def isWs (c : Char) : Bool :=
  c == ' ' || c == '\t' || c == '\n' || c == '\r'

/-- Model of JS `String.prototype.trim`: drop leading and trailing
whitespace. -/
def jsTrimChars (cs : List Char) : List Char :=
  ((cs.dropWhile isWs).reverse.dropWhile isWs).reverse

/-- Numeric value of a decimal digit character. -/
def digitVal (c : Char) : Nat := c.toNat - 48

/-- Hexadecimal digit recogniser used by `parseInt`'s `0x` branch. -/
def isHexDigitJS (c : Char) : Bool :=
  c.isDigit || ('a' ≤ c && c ≤ 'f') || ('A' ≤ c && c ≤ 'F')

/-- Numeric value of a hexadecimal digit character. -/
def hexVal (c : Char) : Nat :=
  if c.isDigit then c.toNat - 48
  else if 'a' ≤ c && c ≤ 'f' then c.toNat - 87
  else c.toNat - 55

/-- Parse the maximal leading run of decimal digits (JS `parseInt` ignores
trailing garbage); no digits at all means `NaN`, i.e. `none`. -/
def parseDecDigits (cs : List Char) : Option Nat :=
  if cs.takeWhile Char.isDigit = [] then none
  else some (Nat.ofDigits 10 (((cs.takeWhile Char.isDigit).map digitVal).reverse))

/-- Parse the maximal leading run of hexadecimal digits. -/
def parseHexDigits (cs : List Char) : Option Nat :=
  if cs.takeWhile isHexDigitJS = [] then none
  else some (Nat.ofDigits 16 (((cs.takeWhile isHexDigitJS).map hexVal).reverse))

/-- Magnitude part of JS `parseInt` with no explicit radix: a leading
`0x`/`0X` selects base 16, anything else is parsed as base 10. -/
def parseIntMagnitude (cs : List Char) : Option Nat :=
  match cs with
  | c0 :: c1 :: rest =>
    if c0 = '0' ∧ (c1 = 'x' ∨ c1 = 'X') then parseHexDigits rest
    else parseDecDigits (c0 :: c1 :: rest)
  | _ => parseDecDigits cs

/-- Sign handling of JS `parseInt`. -/
def parseIntSigned (cs : List Char) : Option Int :=
  match cs with
  | [] => none
  | c :: rest =>
    if c = '-' then (parseIntMagnitude rest).map (fun n => -(n : Int))
    else if c = '+' then (parseIntMagnitude rest).map (fun n => (n : Int))
    else (parseIntMagnitude (c :: rest)).map (fun n => (n : Int))

/-- Model of JS `parseInt(s)` (default radix): skip leading whitespace,
optional sign, then digits; `none` models `NaN`. -/
def parseIntJS (cs : List Char) : Option Int :=
  parseIntSigned (cs.dropWhile isWs)

/-- Little-endian decimal digit characters of `n`, with an explicit fuel
argument so the definition is structurally recursive (any `fuel ≥ n`
yields all digits). -/
def natToCharsRevAux : Nat → Nat → List Char
  | _, 0 => []
  | 0, _ + 1 => []
  | fuel + 1, n + 1 => Nat.digitChar ((n + 1) % 10) :: natToCharsRevAux fuel ((n + 1) / 10)

/-- Decimal rendering of a natural number, most significant digit first
(model of JS `Number.prototype.toString` for non-negative integers). -/
def natToChars (n : Nat) : List Char :=
  if n = 0 then ['0'] else (natToCharsRevAux n n).reverse

/-- Model of JS `Number.prototype.toString` for integers. -/
def intToStr (n : Int) : String :=
  if n < 0 then String.mk ('-' :: natToChars n.natAbs) else String.mk (natToChars n.natAbs)

/-! ## `VMIdManager` state and operations (`src/utils/helpers.ts`) -/

/-- Model of `VMIdManager.initializeVMId`: read the counter file; on success set
`nextId = parseInt(data.trim()) || 1001` (so `NaN` and `0` fall back to the
seed `1001`) without writing anything back; if the read fails, seed with
`1001` and immediately persist it (`saveVMId`).  Result: the new `nextId`
and whether the seed was written back to the file. -/
def initializeVMId (file : Option String) : Int × Bool :=
  match file with
  | none => (1001, true)
  | some data =>
    match parseIntJS (jsTrimChars data.data) with
    | none => (1001, false)
    | some n => if n = 0 then (1001, false) else (n, false)

/-- The cache-related fields of `VMIdManager`: `vmCache` (`null` before the
first refresh) and `cacheExpiry` (a millisecond timestamp, initially 0). -/
structure CacheState where
  vmCache : Option (List Int)
  cacheExpiry : Int
deriving DecidableEq

/-- The constant `VMIdManager.CACHE_TTL` (milliseconds). -/
def CACHE_TTL : Int := 30000

/-- Model of `VMIdManager.refreshVMCache`: return unchanged while a cache exists and
has not expired; otherwise reset the cache to empty and try the three
discovery tiers in order — cluster query (`pvesh get /cluster/resources`),
local `qm list`, and a scan of `/etc/pve/nodes/<node>/qemu-server/` — the
first success populating the cache.  Tier 1 and tier 2 both set the expiry
`CACHE_TTL` (30 s) ahead, tier 3 sets it `CACHE_TTL / 2` (15 s) ahead, and
if all three fail the cache stays empty with the expiry only 5 s ahead.
The second component records which tiers were attempted. -/
def refreshVMCache (now : Int) (tier1 tier2 tier3 : Except Unit (List Int))
    (st : CacheState) : CacheState × List Nat :=
  if st.vmCache.isSome ∧ now < st.cacheExpiry then (st, [])
  else
    match tier1 with
    | .ok vms => ({ vmCache := some vms, cacheExpiry := now + CACHE_TTL }, [1])
    | .error _ =>
      match tier2 with
      | .ok vms => ({ vmCache := some vms, cacheExpiry := now + CACHE_TTL }, [1, 2])
      | .error _ =>
        match tier3 with
        | .ok vms => ({ vmCache := some vms, cacheExpiry := now + CACHE_TTL / 2 }, [1, 2, 3])
        | .error _ => ({ vmCache := some [], cacheExpiry := now + 5000 }, [1, 2, 3])

/-- The candidate-search loop of `VMIdManager.getNextVMId`: starting from
`cand` with `fuel` attempts left, skip candidates that are in the cache;
probe the others (`quickIdCheck`); a probe that reports "exists" adds the
candidate to the cache and moves on; a probe that reports "does not exist"
accepts the candidate.  Returns the final cache and the accepted candidate
(or `none` when the attempt budget is exhausted). -/
def allocLoop (probe : Int → Bool) : Nat → Int → List Int → List Int × Option Int
  | 0, _, cache => (cache, none)
  | fuel + 1, cand, cache =>
    if cand ∈ cache then allocLoop probe fuel (cand + 1) cache
    else if probe cand then allocLoop probe fuel (cand + 1) (cache.insert cand)
    else (cache, some cand)

/-- The mutable static fields of `VMIdManager`: `nextId` (`null` before
first use), `vmCache` and `cacheExpiry`. -/
structure ManagerState where
  nextId : Option Int
  vmCache : Option (List Int)
  cacheExpiry : Int
deriving DecidableEq

/-- The external world of one `getNextVMId` call: the current time, the
outcomes of the three cache-discovery tiers, and the per-candidate
existence probe `quickIdCheck`. -/
structure AllocEnv where
  now : Int
  tier1 : Except Unit (List Int)
  tier2 : Except Unit (List Int)
  tier3 : Except Unit (List Int)
  probe : Int → Bool

/-- The constant `maxAttempts` in `VMIdManager.getNextVMId`. -/
def maxAttempts : Nat := 1000

/-- Outcome of `getNextVMId`: the allocated id, or the thrown error (the
`Error` message names the attempt count and the starting counter value,
see `allocExhaustedMessage`). -/
inductive AllocOutcome where
  | ok (vmid : Int)
  | exhausted (attempts : Nat) (start : Int)
deriving DecidableEq

/-- The message of the error thrown by `getNextVMId` on exhaustion. -/
def allocExhaustedMessage (attempts : Nat) (start : Int) : String :=
  "Could not find available VM ID after " ++ String.mk (natToChars attempts) ++
    " attempts starting from " ++ intToStr start

/-- Model of `VMIdManager.getNextVMId`: initialize `nextId` from the counter file if
this is the first use, refresh the cache if expired, then search for a free
candidate with `allocLoop`.  On acceptance of `v`, set `nextId := v + 1`
and persist it (`saveVMId` writes `nextId.toString()`); on exhaustion the
counter is left unchanged and the error names `maxAttempts` and the
starting value.  Returns the new manager state, the new content of the
counter file, and the outcome.  (`saveVMId` swallows write failures; the
model is the run in which the write succeeds.) -/
def getNextVMId (env : AllocEnv) (st : ManagerState) (file : Option String) :
    ManagerState × Option String × AllocOutcome :=
  let idFile : Int × Option String :=
    match st.nextId with
    | some n => (n, file)
    | none =>
      match initializeVMId file with
      | (n, true) => (n, some (intToStr n))
      | (n, false) => (n, file)
  let start := idFile.1
  let file1 := idFile.2
  let cacheSt := (refreshVMCache env.now env.tier1 env.tier2 env.tier3
    { vmCache := st.vmCache, cacheExpiry := st.cacheExpiry }).1
  match allocLoop env.probe maxAttempts start (cacheSt.vmCache.getD []) with
  | (cache1, some v) =>
    ({ nextId := some (v + 1), vmCache := some cache1, cacheExpiry := cacheSt.cacheExpiry },
      some (intToStr (v + 1)), .ok v)
  | (cache1, none) =>
    ({ nextId := some start, vmCache := some cache1, cacheExpiry := cacheSt.cacheExpiry },
      file1, .exhausted maxAttempts start)

/-! ## Configuration model (`src/config/configManager.ts`, `src/types/api.ts`) -/

/-- A fully resolved network configuration (`NetworkConfig` in
`configManager.ts`). -/
structure NetworkConfig where
  bridge : String
  model : String
  vlan : Int
  speed : String
deriving DecidableEq

/-- The optional `network` override of a provisioning request
(`ProvisionOptionsSchema` allows `{ vlan?, speed? }`). -/
structure RequestNetwork where
  vlan : Option Int := none
  speed : Option String := none
deriving DecidableEq

/-- A provisioning request (`ProvisionOptions`); optional fields are
`Option`s, where `none` models a JS `undefined`. -/
structure ProvisionOptions where
  subscriptionId : String := ""
  custEmail : String := ""
  os : String := ""
  name : String := ""
  hostname : String := ""
  password : String := ""
  cores : Option Int := none
  memory : Option Int := none
  diskSize : Option String := none
  username : Option String := none
  sshKey : Option String := none
  network : Option RequestNetwork := none
deriving DecidableEq

/-- Model of `Partial<NetworkConfig>`: the per-template network overrides. -/
structure TemplateNetwork where
  bridge : Option String := none
  model : Option String := none
  vlan : Option Int := none
  speed : Option String := none
deriving DecidableEq

/-- A template entry (`TemplateConfig` in `configManager.ts`). -/
structure TemplateConfig where
  id : Int
  name : String := ""
  description : String := ""
  arch : String := ""
  default_user : String := ""
  storage : Option String := none
  network : Option TemplateNetwork := none
deriving DecidableEq

/-- The global defaults (`DefaultsConfig` in `configManager.ts`). -/
structure DefaultsConfig where
  cores : Int
  memory : Int
  disk_size : String
  storage : String
  network : NetworkConfig
deriving DecidableEq

/-- JS `a || b` for an optional string field: both `undefined` and the
empty string are falsy. -/
def strOr (a : Option String) (b : String) : String :=
  match a with
  | some s => if s = "" then b else s
  | none => b

/-- JS `a || b` for an optional numeric field: both `undefined` and `0`
are falsy (`NaN` cannot reach these merges, the fields are validated). -/
def numOr (a : Option Int) (b : Int) : Int :=
  match a with
  | some v => if v = 0 then b else v
  | none => b

/-- One character of `sanitizeVMName`: the regex
`[^a-zA-Z0-9-_]` replaces every character outside `[a-zA-Z0-9-_]` with a
hyphen. -/
def sanitizeChar (c : Char) : Char :=
  if c.isAlphanum || c == '-' || c == '_' then c else '-'

/-- Model of `sanitizeVMName` (`src/utils/helpers.ts`): replace disallowed
characters with `-`, then lower-case. -/
def sanitizeVMName (s : String) : String :=
  String.mk ((s.data.map sanitizeChar).map Char.toLower)

/-- Model of `ConfigManager.getNetworkConfig`: when the template has a `network`
block, merge it field-wise over the defaults (`||` for the string fields,
an explicit `!== undefined` test for `vlan`); otherwise return the
defaults unchanged.  The template argument is the result of the
`getTemplate` lookup, which this claim set always exercises on a resolved
template. -/
def getNetworkConfig (template : TemplateConfig) (defaults : NetworkConfig) : NetworkConfig :=
  match template.network with
  | some tn =>
    { bridge := strOr tn.bridge defaults.bridge
      model := strOr tn.model defaults.model
      vlan := match tn.vlan with
              | some v => v
              | none => defaults.vlan
      speed := strOr tn.speed defaults.speed }
  | none => defaults

/-- Model of `opts.network?.vlan`: the request-level VLAN if both the `network`
block and its `vlan` field are present. -/
def requestVlan (opts : ProvisionOptions) : Option Int :=
  opts.network.bind RequestNetwork.vlan

/-- The `finalNetworkConfig` object built in
`VMProvisioningService.provisionVM`: bridge/model from the
template-merged config, `vlan` by an explicit `!== undefined` test on the
request, `speed` by `||`. -/
def finalNetworkConfig (opts : ProvisionOptions) (nc : NetworkConfig) : NetworkConfig :=
  { bridge := nc.bridge
    model := nc.model
    vlan := match requestVlan opts with
            | some v => v
            | none => nc.vlan
    speed := strOr (opts.network.bind RequestNetwork.speed) nc.speed }

/-- The `finalConfig` object built in `provisionVM`. -/
structure FinalConfig where
  os : String
  name : String
  hostname : String
  password : String
  username : String
  diskSize : String
  cores : Int
  memory : Int
  sshKey : Option String
  network : NetworkConfig
deriving DecidableEq

/-- The merge performed at the top of `provisionVM`: request field `||`
default (or template `default_user` for the username), the name
sanitized, and the network merged by `getNetworkConfig` +
`finalNetworkConfig`. -/
def resolveConfig (opts : ProvisionOptions) (template : TemplateConfig)
    (defaults : DefaultsConfig) : FinalConfig :=
  { os := opts.os
    name := sanitizeVMName opts.name
    hostname := opts.hostname
    password := opts.password
    username := strOr opts.username template.default_user
    diskSize := strOr opts.diskSize defaults.disk_size
    cores := numOr opts.cores defaults.cores
    memory := numOr opts.memory defaults.memory
    sshKey := opts.sshKey
    network := finalNetworkConfig opts (getNetworkConfig template defaults.network) }

/-- The spec's three-layer precedence rule for the VLAN, written from the
spec's words ("explicit request field > template-specific field > global
default field") for comparison with the source-derived resolution. -/
def specVlanPrecedence (reqVlan tmplVlan : Option Int) (defaultVlan : Int) : Int :=
  match reqVlan with
  | some v => v
  | none =>
    match tmplVlan with
    | some v => v
    | none => defaultVlan

/-! ## Provisioning pipeline (`src/services/vmProvisioningService.ts`)

Each external `runCommand` invocation of `provisionVM` and its helpers is
one `Cmd`; `renderCmd` gives the exact command string the source builds.
The executor is a function `Cmd → Except String String` (output text or a
`CommandError`, carried as its message).  The two rollback commands are
issued with a trailing `|| true`, so the shell reports exit code 0 no
matter what `qm stop` / `qm destroy` did: in the model they always
"succeed", which is exactly why the cleanup `catch` in the source is
unreachable and both rollback commands always run.  The best-effort
database status update after `qm start` is wrapped in its own
`try`/`catch` and cannot influence the pipeline; it is not modelled. -/

/-- One external command issued by the provisioning pipeline. -/
inductive Cmd where
  | clone (templateId vmid : Int) (name : String)
  | setCpuMem (vmid cores memory : Int)
  | setNet (vmid : Int) (netConfig : String)
  | resizeDisk (vmid : Int) (size : String)
  | setCiUser (vmid : Int) (user : String)
  | setCiPassword (vmid : Int)
  | setHostname (vmid : Int) (hostname : String)
  | setSshKeys (vmid : Int) (key : String)
  | start (vmid : Int)
  | stopRollback (vmid : Int)
  | destroyRollback (vmid : Int)
deriving DecidableEq

/-- The literal command strings built by the source. -/
def renderCmd : Cmd → String
  | .clone t v n => "qm clone " ++ intToStr t ++ " " ++ intToStr v ++ " --name \"" ++ n ++ "\" --full"
  | .setCpuMem v c m => "qm set " ++ intToStr v ++ " --cores " ++ intToStr c ++ " --memory " ++ intToStr m
  | .setNet v nc => "qm set " ++ intToStr v ++ " --net0 " ++ nc
  | .resizeDisk v s => "qm resize " ++ intToStr v ++ " scsi0 " ++ s
  | .setCiUser v u => "qm set " ++ intToStr v ++ " --ciuser \"" ++ u ++ "\""
  | .setCiPassword v => "qm set " ++ intToStr v ++ " --cipassword [redacted]"
  | .setHostname v h => "qm set " ++ intToStr v ++ " --name \"" ++ h ++ "\""
  | .setSshKeys v k => "qm set " ++ intToStr v ++ " --sshkeys [" ++ k ++ "]"
  | .start v => "qm start " ++ intToStr v
  | .stopRollback v => "qm stop " ++ intToStr v ++ " --skiplock || true"
  | .destroyRollback v => "qm destroy " ++ intToStr v ++ " --skiplock || true"

/-- True for the two best-effort rollback commands of the `catch` block. -/
def Cmd.isRollback : Cmd → Bool
  | .stopRollback _ => true
  | .destroyRollback _ => true
  | _ => false

/-- The `--net0` argument string built in `configureVM`: a VLAN tag is
appended only when `vlan` is truthy and not `1`, a rate limit only when
`speed` is truthy and not `"1000"`. -/
def netConfigString (nc : NetworkConfig) : String :=
  let base := nc.model ++ ",bridge=" ++ nc.bridge
  let base1 := if nc.vlan ≠ 0 ∧ nc.vlan ≠ 1 then base ++ ",tag=" ++ intToStr nc.vlan else base
  if nc.speed ≠ "" ∧ nc.speed ≠ "1000" then base1 ++ ",rate=" ++ nc.speed else base1

/-- The commands of `configureVM`: cores/memory, network, and a disk
resize only when `config.diskSize && config.diskSize !== "20G"` (truthy
and different from the hard-coded template default `"20G"`). -/
def configureCmds (vmid : Int) (cfg : FinalConfig) : List Cmd :=
  [Cmd.setCpuMem vmid cfg.cores cfg.memory, Cmd.setNet vmid (netConfigString cfg.network)] ++
    (if cfg.diskSize ≠ "" ∧ cfg.diskSize ≠ "20G" then [Cmd.resizeDisk vmid cfg.diskSize] else [])

/-- The commands of `setupCloudInit`: user, password, hostname, and the
SSH key only when `config.sshKey` is truthy. -/
def cloudInitCmds (vmid : Int) (cfg : FinalConfig) : List Cmd :=
  [Cmd.setCiUser vmid cfg.username, Cmd.setCiPassword vmid, Cmd.setHostname vmid cfg.hostname] ++
    (match cfg.sshKey with
     | some k => if k = "" then [] else [Cmd.setSshKeys vmid k]
     | none => [])

/-- The strictly sequential command list of one provisioning run:
clone, configure, cloud-init, start. -/
def pipelineCmds (vmid : Int) (template : TemplateConfig) (cfg : FinalConfig) : List Cmd :=
  Cmd.clone template.id vmid cfg.name ::
    (configureCmds vmid cfg ++ cloudInitCmds vmid cfg ++ [Cmd.start vmid])

/-- Run commands in order until the first failure: returns the executed
prefix (the executor's call log) and the first error, if any.  A failing
command aborts all remaining steps. -/
def runPipeline (env : Cmd → Except String String) : List Cmd → List Cmd × Option String
  | [] => ([], none)
  | c :: rest =>
    match env c with
    | .ok _ =>
      match runPipeline env rest with
      | (tr, r) => (c :: tr, r)
    | .error e => ([c], some e)

/-- The errors `provisionVM` can propagate: the allocator's exhaustion
error, `getTemplate`'s unsupported-OS error, and a `CommandError` from a
pipeline step. -/
inductive ProvisionError where
  | allocationExhausted (attempts : Nat) (start : Int)
  | templateNotFound (os : String)
  | command (e : String)
deriving DecidableEq

/-- The `ProvisionResult` returned on success. -/
structure ProvisionResult where
  vmid : Int
  status : String
  os : String
  name : String
  cores : Int
  memory : Int
  hostname : String
  username : String
  bridge : String
  vlan : Int
  speed : String
deriving DecidableEq

/-- Model of `VMProvisioningService.provisionVM`: allocation runs first (its
outcome is passed in, see `getNextVMId`), then the template lookup —
both before the `try` block, so their failures return directly with no
command issued.  Then the resolved configuration drives the pipeline; on
the first command failure the `catch` block appends the two `|| true`
rollback commands (stop, then destroy) and re-raises the original error. -/
def provisionVM (env : Cmd → Except String String) (alloc : AllocOutcome)
    (templateLookup : Option TemplateConfig) (defaults : DefaultsConfig)
    (opts : ProvisionOptions) : List Cmd × Except ProvisionError ProvisionResult :=
  match alloc with
  | .exhausted a s => ([], .error (.allocationExhausted a s))
  | .ok vmid =>
    match templateLookup with
    | none => ([], .error (.templateNotFound opts.os))
    | some template =>
      let cfg := resolveConfig opts template defaults
      match runPipeline env (pipelineCmds vmid template cfg) with
      | (tr, none) =>
        (tr, .ok { vmid := vmid, status := "running", os := opts.os, name := cfg.name,
                   cores := cfg.cores, memory := cfg.memory, hostname := cfg.hostname,
                   username := cfg.username, bridge := cfg.network.bridge,
                   vlan := cfg.network.vlan, speed := cfg.network.speed })
      | (tr, some e) =>
        (tr ++ [Cmd.stopRollback vmid, Cmd.destroyRollback vmid], .error (.command e))

/-! ## Interleaving model of concurrent `getNextVMId` calls

`getNextVMId` is `async` and holds no lock: its execution is a sequence of
synchronous segments separated by `await` points (`quickIdCheck` and
`saveVMId`; the initial `initializeVMId` / `refreshVMCache` awaits are
no-ops once the counter is loaded and the cache is fresh).  Two in-flight
calls interleave at exactly these points.  `TaskPhase` records where one
call is suspended; `taskStep` runs one synchronous segment against the
shared static state (`nextId`, `vmCache`). -/

/-- Where one in-flight `getNextVMId` call is suspended. -/
inductive TaskPhase where
  | notStarted
  | probing (cand : Int) (fuel : Nat)
  | saving (ret : Int)
  | done (ret : Int)
  | exhausted
deriving DecidableEq

/-- The shared static fields both calls read and write (counter loaded,
cache present and fresh). -/
structure SharedState where
  nextId : Int
  cache : List Int
deriving DecidableEq

/-- Synchronously skip cache hits (no `await` happens while the loop
advances over cached candidates): the next candidate to probe and the
remaining attempt budget, or `none` when the budget runs out. -/
def skipCached (cache : List Int) : Nat → Int → Option (Int × Nat)
  | 0, _ => none
  | fuel + 1, cand =>
    if cand ∈ cache then skipCached cache fuel (cand + 1)
    else some (cand, fuel + 1)

/-- One synchronous segment of a suspended `getNextVMId` call:
* `notStarted`: read the shared counter, skip cache hits, start a probe;
* `probing`: the probe resolved — "exists" adds the candidate to the
  shared cache and starts the next probe, "does not exist" writes
  `nextId := cand + 1` and starts the counter save;
* `saving`: the save resolved — return the candidate. -/
def taskStep (probe : Int → Bool) : SharedState → TaskPhase → SharedState × TaskPhase
  | sh, .notStarted =>
    match skipCached sh.cache maxAttempts sh.nextId with
    | some (cand, _) => (sh, .probing cand maxAttempts)
    | none => (sh, .exhausted)
  | sh, .probing cand fuel =>
    if probe cand then
      let cache1 := sh.cache.insert cand
      match skipCached cache1 (fuel - 1) (cand + 1) with
      | some (c2, f2) => ({ sh with cache := cache1 }, .probing c2 f2)
      | none => ({ sh with cache := cache1 }, .exhausted)
    else ({ sh with nextId := cand + 1 }, .saving cand)
  | sh, .saving r => (sh, .done r)
  | sh, .done r => (sh, .done r)
  | sh, .exhausted => (sh, .exhausted)

/-- Two concurrent `getNextVMId` calls sharing the static state. -/
structure TwoTasks where
  shared : SharedState
  task0 : TaskPhase
  task1 : TaskPhase
deriving DecidableEq

/-- Resume the scheduled task for one synchronous segment (`true`
schedules task 1). -/
def schedStep (probe : Int → Bool) (st : TwoTasks) (who : Bool) : TwoTasks :=
  if who then
    match taskStep probe st.shared st.task1 with
    | (sh, ph) => { st with shared := sh, task1 := ph }
  else
    match taskStep probe st.shared st.task0 with
    | (sh, ph) => { st with shared := sh, task0 := ph }

/-- Run a whole schedule. -/
def runSched (probe : Int → Bool) : List Bool → TwoTasks → TwoTasks
  | [], st => st
  | w :: ws, st => runSched probe ws (schedStep probe st w)

/-! ## Concrete inputs used by witnesses and counterexamples -/

/-- Global defaults as in a typical `templates.yaml`. -/
def exDefaults : DefaultsConfig :=
  { cores := 2, memory := 2048, disk_size := "20G", storage := "local-lvm",
    network := { bridge := "vmbr0", model := "virtio", vlan := 1, speed := "1000" } }

/-- A template with no network overrides. -/
def exTemplate : TemplateConfig :=
  { id := 9000, name := "ubuntu-22.04", default_user := "ubuntu" }

/-- A template that overrides only the VLAN, with value 50. -/
def exTemplateVlan50 : TemplateConfig :=
  { id := 9000, name := "ubuntu-22.04", default_user := "ubuntu",
    network := some { vlan := some 50 } }

/-- A minimal valid provisioning request. -/
def exOpts : ProvisionOptions :=
  { subscriptionId := "sub-1", custEmail := "user@example.com", os := "ubuntu",
    name := "web-1", hostname := "web", password := "pw" }

/-- The same request with an explicit `network.vlan = 100`. -/
def exOptsVlan100 : ProvisionOptions :=
  { exOpts with network := some { vlan := some 100 } }

/-- Defaults whose `disk_size` is the empty string (the YAML config is
external input; `""` is falsy in JS). -/
def exDefaultsEmptyDisk : DefaultsConfig :=
  { exDefaults with disk_size := "" }

/-- An executor that fails the Configure step (the cores/memory command)
and accepts everything else. -/
def exFailConfigureEnv : Cmd → Except String String := fun c =>
  match c with
  | Cmd.setCpuMem _ _ _ => .error "configure failed"
  | _ => .ok ""

/-- An in-use cache holding 1001–1003. -/
def exCacheC2 : List Int := [1001, 1002, 1003]

/-- An allocation environment in which the probe reports 1004 and 1005 as
existing and everything else as free (the tiers are irrelevant while the
cache is fresh). -/
def exEnvC2 : AllocEnv :=
  { now := 0, tier1 := .error (), tier2 := .error (), tier3 := .error (),
    probe := fun c => c == 1004 || c == 1005 }

/-- Manager state: counter at 1001, fresh cache holding 1001–1003. -/
def exStC2 : ManagerState :=
  { nextId := some 1001, vmCache := some exCacheC2, cacheExpiry := 1 }

/-- An allocation environment whose probe reports every candidate as
existing. -/
def exEnvAllUsed : AllocEnv :=
  { now := 0, tier1 := .error (), tier2 := .error (), tier3 := .error (),
    probe := fun _ => true }

/-- Manager state: counter at 1001, fresh empty cache. -/
def exStEmpty : ManagerState :=
  { nextId := some 1001, vmCache := some [], cacheExpiry := 1 }

/-- The request with an explicit 40G disk size. -/
def exOptsDisk40 : ProvisionOptions :=
  { exOpts with diskSize := some "40G" }

/-- The executor call log of a run of `provisionVM` under
`exFailConfigureEnv`: clone succeeds, the cores/memory command fails,
then the two rollback commands run. -/
def exTrC3 : List Cmd :=
  [Cmd.clone 9000 1001 "web-1", Cmd.setCpuMem 1001 2 2048,
    Cmd.stopRollback 1001, Cmd.destroyRollback 1001]

/-!
# Theorems
-/

/-! ## Properties of the candidate-search loop -/

/-- Soundness of the search loop: an accepted candidate is free (neither
in the cache it started from nor reported by the probe), every smaller
candidate from the start point is in use, every probed-as-existing
candidate below the accepted one ends up in the cache, and the cache only
grows. -/
theorem allocLoop_sound (probe : Int → Bool) :
    ∀ (fuel : Nat) (cand : Int) (cache cache' : List Int) (v : Int),
      allocLoop probe fuel cand cache = (cache', some v) →
      cand ≤ v ∧ v ∉ cache ∧ probe v = false ∧
        (∀ c : Int, cand ≤ c → c < v → (c ∈ cache ∨ probe c = true)) ∧
        (∀ c : Int, cand ≤ c → c < v → probe c = true → c ∈ cache') ∧
        (∀ c : Int, c ∈ cache → c ∈ cache') := by
  intro fuel
  induction fuel with
  | zero => intro cand cache cache' v h; simp [allocLoop] at h
  | succ n ih =>
    intro cand cache cache' v h
    rw [allocLoop] at h
    by_cases hmem : cand ∈ cache
    · rw [if_pos hmem] at h
      obtain ⟨h1, h2, h3, h4, h5, h6⟩ := ih (cand + 1) cache cache' v h
      refine ⟨by omega, h2, h3, ?_, ?_, h6⟩
      · intro c hc1 hc2
        rcases eq_or_lt_of_le hc1 with rfl | hlt
        · exact Or.inl hmem
        · exact h4 c (by omega) hc2
      · intro c hc1 hc2 hp
        rcases eq_or_lt_of_le hc1 with rfl | hlt
        · exact h6 _ hmem
        · exact h5 c (by omega) hc2 hp
    · rw [if_neg hmem] at h
      by_cases hp : probe cand = true
      · rw [if_pos hp] at h
        obtain ⟨h1, h2, h3, h4, h5, h6⟩ := ih (cand + 1) (cache.insert cand) cache' v h
        refine ⟨by omega, fun hv => h2 (List.mem_insert_of_mem hv), h3, ?_, ?_, ?_⟩
        · intro c hc1 hc2
          rcases eq_or_lt_of_le hc1 with rfl | hlt
          · exact Or.inr hp
          · rcases h4 c (by omega) hc2 with hin | hpr
            · rcases List.mem_insert_iff.mp hin with rfl | hin'
              · exact Or.inr hp
              · exact Or.inl hin'
            · exact Or.inr hpr
        · intro c hc1 hc2 hpc
          rcases eq_or_lt_of_le hc1 with rfl | hlt
          · exact h6 _ (List.mem_insert_self _ _)
          · exact h5 c (by omega) hc2 hpc
        · intro c hcm
          exact h6 c (List.mem_insert_of_mem hcm)
      · rw [if_neg hp] at h
        obtain ⟨rfl, hv⟩ : cache = cache' ∧ some cand = some v := by
          constructor <;> [exact congrArg Prod.fst h; exact congrArg Prod.snd h]
        obtain rfl : cand = v := Option.some.inj hv
        refine ⟨le_refl _, hmem, by simpa using hp, ?_, ?_, fun c hc => hc⟩
        · intro c hc1 hc2; omega
        · intro c hc1 hc2; omega

/-- If every candidate in the attempt window is in use (cached or probed
as existing), the search loop exhausts its budget. -/
theorem allocLoop_exhaust (probe : Int → Bool) :
    ∀ (fuel : Nat) (cand : Int) (cache : List Int),
      (∀ c : Int, cand ≤ c → c < cand + (fuel : Int) → (c ∈ cache ∨ probe c = true)) →
      (allocLoop probe fuel cand cache).2 = none := by
  intro fuel
  induction fuel with
  | zero => intro cand cache _; simp [allocLoop]
  | succ n ih =>
    intro cand cache hall
    rw [allocLoop]
    by_cases hmem : cand ∈ cache
    · rw [if_pos hmem]
      exact ih (cand + 1) cache (fun c h1 h2 => hall c (by omega) (by push_cast at h2 ⊢; omega))
    · have hp : probe cand = true := by
        rcases hall cand (le_refl _) (by push_cast; omega) with h | h
        · exact absurd h hmem
        · exact h
      rw [if_neg hmem, if_pos hp]
      refine ih (cand + 1) (cache.insert cand) (fun c h1 h2 => ?_)
      rcases hall c (by omega) (by push_cast at h2 ⊢; omega) with h | h
      · exact Or.inl (List.mem_insert_of_mem h)
      · exact Or.inr h

/-- Unfolding of `getNextVMId` when the counter is already loaded and the
cache is fresh (the refresh early-returns). -/
theorem getNextVMId_fresh (env : AllocEnv) (st : ManagerState) (file : Option String)
    (start : Int) (cache : List Int)
    (hn : st.nextId = some start) (hc : st.vmCache = some cache)
    (hfresh : env.now < st.cacheExpiry) :
    getNextVMId env st file =
      match allocLoop env.probe maxAttempts start cache with
      | (cache1, some v) =>
        ({ nextId := some (v + 1), vmCache := some cache1, cacheExpiry := st.cacheExpiry },
          some (intToStr (v + 1)), .ok v)
      | (cache1, none) =>
        ({ nextId := some start, vmCache := some cache1, cacheExpiry := st.cacheExpiry },
          file, .exhausted maxAttempts start) := by
  have hrefresh : refreshVMCache env.now env.tier1 env.tier2 env.tier3
      { vmCache := some cache, cacheExpiry := st.cacheExpiry } =
      ({ vmCache := some cache, cacheExpiry := st.cacheExpiry }, []) := by
    rw [refreshVMCache.eq_def, if_pos ⟨rfl, hfresh⟩]
  simp only [getNextVMId, hn, hc, hrefresh, Option.getD_some]

/-- C2: a call to `getNextVMId` that succeeds with `v` returns the
smallest candidate at or above the current counter that is neither in the
in-use cache nor reported by the existence probe; every smaller candidate
is in use, and every candidate the probe reported as existing has been
added to the cache.  (The instance with 1001–1005 in use and counter 1001
returning 1006 is the witness below.) -/
theorem getNextVMId_returns_least_free (env : AllocEnv) (st : ManagerState)
    (file : Option String) (start : Int) (cache : List Int)
    (st' : ManagerState) (file' : Option String) (v : Int)
    (hn : st.nextId = some start) (hc : st.vmCache = some cache)
    (hfresh : env.now < st.cacheExpiry)
    (hok : getNextVMId env st file = (st', file', .ok v)) :
    start ≤ v ∧ v ∉ cache ∧ env.probe v = false ∧
      (∀ c : Int, start ≤ c → c < v → (c ∈ cache ∨ env.probe c = true)) ∧
      (∀ c : Int, start ≤ c → c < v → env.probe c = true → c ∈ st'.vmCache.getD []) := by
  rw [getNextVMId_fresh env st file start cache hn hc hfresh] at hok
  rcases hloop : allocLoop env.probe maxAttempts start cache with ⟨cache1, res⟩
  rw [hloop] at hok
  cases res with
  | none => simp at hok
  | some w =>
    simp only [Prod.mk.injEq, AllocOutcome.ok.injEq] at hok
    obtain ⟨hst', hfile', rfl⟩ := hok
    obtain ⟨h1, h2, h3, h4, h5, _⟩ :=
      allocLoop_sound env.probe maxAttempts start cache cache1 w hloop
    refine ⟨h1, h2, h3, h4, ?_⟩
    intro c hc1 hc2 hp
    rw [← hst']
    simpa using h5 c hc1 hc2 hp

/-- Witness for C2: with the counter at 1001, identifiers 1001–1003 in the
cache and 1004–1005 reported by the probe, the call returns 1006, which is
free and minimal. -/
theorem getNextVMId_returns_least_free_witness :
    (1001 : Int) ≤ 1006 ∧ (1006 : Int) ∉ exCacheC2 ∧ exEnvC2.probe 1006 = false ∧
      (∀ c : Int, 1001 ≤ c → c < 1006 → (c ∈ exCacheC2 ∨ exEnvC2.probe c = true)) ∧
      (∀ c : Int, 1001 ≤ c → c < 1006 → exEnvC2.probe c = true →
        c ∈ ([1005, 1004, 1001, 1002, 1003] : List Int)) :=
  getNextVMId_returns_least_free exEnvC2 exStC2 (some "1001") 1001 exCacheC2
    ⟨some 1007, some [1005, 1004, 1001, 1002, 1003], 1⟩
    (some "1007") 1006 rfl rfl (by decide) (by decide)

/-- C5: if every candidate in the 1000-attempt window starting at the
current counter value is in use (in the cache or probed as existing),
`getNextVMId` fails with the exhaustion error naming the attempt count
and the starting counter value, the in-memory counter is not advanced,
and the persisted counter file is not overwritten; the thrown `Error`'s
message (`allocExhaustedMessage`) names exactly those two values. -/
theorem getNextVMId_exhaustion (env : AllocEnv) (st : ManagerState)
    (file : Option String) (start : Int) (cache : List Int)
    (hn : st.nextId = some start) (hc : st.vmCache = some cache)
    (hfresh : env.now < st.cacheExpiry)
    (hall : ∀ c : Int, start ≤ c → c < start + (maxAttempts : Int) →
      (c ∈ cache ∨ env.probe c = true)) :
    (getNextVMId env st file).2.2 = .exhausted maxAttempts start ∧
      (getNextVMId env st file).1.nextId = some start ∧
      (getNextVMId env st file).2.1 = file ∧
      allocExhaustedMessage maxAttempts start =
        "Could not find available VM ID after 1000 attempts starting from " ++ intToStr start := by
  rw [getNextVMId_fresh env st file start cache hn hc hfresh]
  have hnone := allocLoop_exhaust env.probe maxAttempts start cache hall
  rcases hloop : allocLoop env.probe maxAttempts start cache with ⟨cache1, res⟩
  rw [hloop] at hnone
  cases res with
  | some w => simp at hnone
  | none =>
    refine ⟨rfl, rfl, rfl, ?_⟩
    show ("Could not find available VM ID after " ++ String.mk (natToChars maxAttempts) ++
      " attempts starting from ") ++ intToStr start = _
    exact congrArg (· ++ intToStr start) (by decide)

/-- Witness for C5: counter at 1001, fresh empty cache, probe reporting
every candidate as existing — the call exhausts and leaves the counter and
the file alone. -/
theorem getNextVMId_exhaustion_witness :
    (getNextVMId exEnvAllUsed exStEmpty (some "1001")).2.2 = .exhausted maxAttempts 1001 ∧
      (getNextVMId exEnvAllUsed exStEmpty (some "1001")).1.nextId = some 1001 ∧
      (getNextVMId exEnvAllUsed exStEmpty (some "1001")).2.1 = some "1001" := by
  have h := getNextVMId_exhaustion exEnvAllUsed exStEmpty (some "1001") 1001 [] rfl rfl
    (by decide) (fun c _ _ => Or.inr rfl)
  exact ⟨h.1, h.2.1, h.2.2.1⟩

/-! ## Round trip between the counter renderer and `parseInt` -/

/-- Facts about the ten decimal digit characters, by enumeration. -/
theorem digitChar_facts : ∀ d : Nat, d < 10 →
    digitVal (Nat.digitChar d) = d ∧ (Nat.digitChar d).isDigit = true ∧
      isWs (Nat.digitChar d) = false ∧ Nat.digitChar d ≠ '-' ∧ Nat.digitChar d ≠ '+' ∧
      Nat.digitChar d ≠ 'x' ∧ Nat.digitChar d ≠ 'X' := by decide

/-- The little-endian digit characters of `n` evaluate back to `n`. -/
theorem natToCharsRevAux_val : ∀ (fuel n : Nat), n ≤ fuel →
    Nat.ofDigits 10 ((natToCharsRevAux fuel n).map digitVal) = n := by
  intro fuel
  induction fuel with
  | zero =>
    intro n h
    interval_cases n
    simp [natToCharsRevAux]
  | succ m ih =>
    intro n h
    cases n with
    | zero => simp [natToCharsRevAux]
    | succ k =>
      rw [natToCharsRevAux]
      simp only [List.map_cons, Nat.ofDigits_cons]
      rw [(digitChar_facts _ (Nat.mod_lt _ (by norm_num))).1]
      rw [ih ((k + 1) / 10) (by omega)]
      omega

/-- Every character produced by the renderer is a decimal digit
character. -/
theorem natToCharsRevAux_mem : ∀ (fuel n : Nat) (c : Char), c ∈ natToCharsRevAux fuel n →
    ∃ d : Nat, d < 10 ∧ c = Nat.digitChar d := by
  intro fuel
  induction fuel with
  | zero =>
    intro n c hc
    cases n <;> simp [natToCharsRevAux] at hc
  | succ m ih =>
    intro n c hc
    cases n with
    | zero => simp [natToCharsRevAux] at hc
    | succ k =>
      rw [natToCharsRevAux] at hc
      rcases List.mem_cons.mp hc with rfl | hc'
      · exact ⟨(k + 1) % 10, Nat.mod_lt _ (by norm_num), rfl⟩
      · exact ih _ c hc'

/-- The renderer emits at least one digit for a positive number. -/
theorem natToCharsRevAux_ne_nil (fuel n : Nat) (h1 : 1 ≤ n) (h2 : n ≤ fuel) :
    natToCharsRevAux fuel n ≠ [] := by
  cases fuel with
  | zero => omega
  | succ m =>
    cases n with
    | zero => omega
    | succ k =>
      rw [natToCharsRevAux]
      exact List.cons_ne_nil _ _

/-- Character-class facts about the rendering of any natural number. -/
theorem natToChars_digits (n : Nat) (c : Char) (hc : c ∈ natToChars n) :
    c.isDigit = true ∧ isWs c = false ∧ c ≠ '-' ∧ c ≠ '+' ∧ c ≠ 'x' ∧ c ≠ 'X' := by
  unfold natToChars at hc
  by_cases h : n = 0
  · rw [if_pos h] at hc
    simp at hc
    subst hc
    exact ⟨by decide, by decide, by decide, by decide, by decide, by decide⟩
  · rw [if_neg h] at hc
    obtain ⟨d, hd, rfl⟩ := natToCharsRevAux_mem n n c (List.mem_reverse.mp hc)
    obtain ⟨-, h2, h3, h4, h5, h6, h7⟩ := digitChar_facts d hd
    exact ⟨h2, h3, h4, h5, h6, h7⟩

/-- The function `dropWhile` is the identity when no element satisfies the predicate. -/
theorem dropWhile_of_all_false (p : Char → Bool) (l : List Char)
    (h : ∀ c ∈ l, p c = false) : l.dropWhile p = l := by
  cases l with
  | nil => rfl
  | cons a l =>
    rw [List.dropWhile_cons, h a (List.mem_cons_self a l)]
    simp

/-- JS `trim` leaves a whitespace-free string alone. -/
theorem jsTrimChars_of_no_ws (l : List Char) (h : ∀ c ∈ l, isWs c = false) :
    jsTrimChars l = l := by
  unfold jsTrimChars
  rw [dropWhile_of_all_false isWs l h,
    dropWhile_of_all_false isWs l.reverse (fun c hc => h c (List.mem_reverse.mp hc)),
    List.reverse_reverse]

/-- On a list that contains no `x`/`X`, `parseInt`'s magnitude parser is
the decimal parser (the `0x` radix detection cannot fire). -/
theorem parseIntMagnitude_no_hex (l : List Char) (h : ∀ c ∈ l, c ≠ 'x' ∧ c ≠ 'X') :
    parseIntMagnitude l = parseDecDigits l := by
  match l with
  | [] => rfl
  | [c] => rfl
  | c0 :: c1 :: rest =>
    have h1 := h c1 (by simp)
    show (if c0 = '0' ∧ (c1 = 'x' ∨ c1 = 'X') then parseHexDigits rest
      else parseDecDigits (c0 :: c1 :: rest)) = _
    rw [if_neg]
    rintro ⟨-, h2 | h2⟩
    · exact h1.1 h2
    · exact h1.2 h2

/-- Parsing the rendered digits of a positive `n` yields `n` back. -/
theorem parseIntJS_natToChars (n : Nat) (h : 1 ≤ n) :
    parseIntJS (natToChars n) = some (n : Int) := by
  have hall := fun c hc => natToChars_digits n c hc
  have hne : natToChars n ≠ [] := by
    unfold natToChars
    rw [if_neg (by omega)]
    simpa using natToCharsRevAux_ne_nil n n h le_rfl
  have hdrop : (natToChars n).dropWhile isWs = natToChars n :=
    dropWhile_of_all_false isWs _ (fun c hc => (hall c hc).2.1)
  have htake : (natToChars n).takeWhile Char.isDigit = natToChars n :=
    List.takeWhile_eq_self_iff.mpr (fun c hc => (hall c hc).1)
  have hmag : parseIntMagnitude (natToChars n) = parseDecDigits (natToChars n) :=
    parseIntMagnitude_no_hex _ (fun c hc => ⟨(hall c hc).2.2.2.2.1, (hall c hc).2.2.2.2.2⟩)
  have hdec : parseDecDigits (natToChars n) = some n := by
    unfold parseDecDigits
    rw [htake, if_neg hne]
    unfold natToChars
    rw [if_neg (by omega)]
    rw [List.map_reverse, List.reverse_reverse, natToCharsRevAux_val n n le_rfl]
  obtain ⟨c, rest, hcons⟩ := List.exists_cons_of_ne_nil hne
  have hc0 := hall c (by rw [hcons]; exact List.mem_cons_self _ _)
  unfold parseIntJS
  rw [hdrop, hcons, parseIntSigned, if_neg hc0.2.2.1, if_neg hc0.2.2.2.1, ← hcons, hmag, hdec]
  rfl

/-- Reading back a counter file holding the rendering of a positive
integer restores exactly that integer, without a seed write-back. -/
theorem initializeVMId_roundTrip (v : Int) (h : 1 ≤ v) :
    initializeVMId (some (intToStr v)) = (v, false) := by
  have hparse : parseIntJS (jsTrimChars (intToStr v).data) = some v := by
    unfold intToStr
    rw [if_neg (by omega)]
    show parseIntJS (jsTrimChars (natToChars v.natAbs)) = some v
    rw [jsTrimChars_of_no_ws _ (fun c hc => (natToChars_digits v.natAbs c hc).2.1),
      parseIntJS_natToChars v.natAbs (by omega), Int.natAbs_of_nonneg (by omega)]
  show (match parseIntJS (jsTrimChars (intToStr v).data) with
    | none => ((1001 : Int), false)
    | some n => if n = 0 then ((1001 : Int), false) else (n, false)) = (v, false)
  rw [hparse]
  show (if v = 0 then ((1001 : Int), false) else (v, false)) = (v, false)
  rw [if_neg (by omega)]

/-- C8: a successful allocation of `v` from a counter at `start ≥ 0`
overwrites the persisted counter file with the plain-text rendering of
`v + 1`, sets the in-memory counter to `v + 1`, never moves below the old
counter (`start ≤ v`, so the persisted value only grows), and a fresh
process initializing from that file starts from exactly `v + 1` (restart
durability). -/
theorem persisted_counter_roundtrip (env : AllocEnv) (st : ManagerState)
    (file : Option String) (start v : Int) (st' : ManagerState) (file' : Option String)
    (hn : st.nextId = some start) (h0 : 0 ≤ start)
    (hok : getNextVMId env st file = (st', file', .ok v)) :
    file' = some (intToStr (v + 1)) ∧ st'.nextId = some (v + 1) ∧ start ≤ v ∧
      initializeVMId file' = (v + 1, false) := by
  simp only [getNextVMId, hn] at hok
  rcases hloop : allocLoop env.probe maxAttempts start
      ((refreshVMCache env.now env.tier1 env.tier2 env.tier3
        { vmCache := st.vmCache, cacheExpiry := st.cacheExpiry }).1.vmCache.getD [])
    with ⟨cache1, res⟩
  rw [hloop] at hok
  cases res with
  | none => simp at hok
  | some w =>
    simp only [Prod.mk.injEq, AllocOutcome.ok.injEq] at hok
    obtain ⟨hst', hfile', rfl⟩ := hok
    obtain ⟨h1, -⟩ := allocLoop_sound env.probe maxAttempts start _ cache1 w hloop
    refine ⟨hfile'.symm, ?_, h1, ?_⟩
    · rw [← hst']
    · rw [← hfile']
      exact initializeVMId_roundTrip (w + 1) (by omega)

/-- Witness for C8: allocating 1006 from counter 1001 persists `"1007"`,
which a fresh process reads back as 1007 with no seed write. -/
theorem persisted_counter_roundtrip_witness :
    (some "1007" : Option String) = some (intToStr (1006 + 1)) ∧
      (ManagerState.nextId ⟨some 1007, some [1005, 1004, 1001, 1002, 1003], 1⟩) =
        some (1006 + 1) ∧
      (1001 : Int) ≤ 1006 ∧ initializeVMId (some "1007") = (1006 + 1, false) :=
  persisted_counter_roundtrip exEnvC2 exStC2 (some "1001") 1001 1006
    ⟨some 1007, some [1005, 1004, 1001, 1002, 1003], 1⟩ (some "1007") rfl (by decide) (by decide)

/-- C10 counterexample: a counter file holding `"-5"` initializes the
in-memory counter to `-5` (JS `parseInt(\"-5\") || 1001` keeps `-5`, a
truthy value), which is not a positive integer as the claim states. -/
theorem initializeVMId_negative_counter :
    initializeVMId (some "-5") = (-5, false) ∧ ¬ (0 < (-5 : Int)) :=
  ⟨by decide, by decide⟩

/-- C10 amended: after initialization the counter is a nonzero (not
necessarily positive) integer — it equals the file's parsed value whenever
`parseInt` yields a nonzero number (which can be negative), and `1001`
otherwise (missing/unreadable file, non-numeric content, or content
parsing to `0`); the seed is written back only in the missing/unreadable
branch. -/
theorem initializeVMId_characterization (file : Option String) :
    (initializeVMId file).1 ≠ 0 ∧
      ((initializeVMId file).2 = true ↔ file = none) ∧
      (∀ data n, file = some data → parseIntJS (jsTrimChars data.data) = some n → n ≠ 0 →
        (initializeVMId file).1 = n) ∧
      (∀ data, file = some data →
        (parseIntJS (jsTrimChars data.data) = none ∨
          parseIntJS (jsTrimChars data.data) = some 0) →
        (initializeVMId file).1 = 1001) := by
  cases file with
  | none =>
    refine ⟨by decide, by simp [initializeVMId], ?_, ?_⟩
    · intro d n hdn
      exact absurd hdn (by simp)
    · intro d hd
      exact absurd hd (by simp)
  | some data =>
    have hbody : initializeVMId (some data) =
        match parseIntJS (jsTrimChars data.data) with
        | none => ((1001 : Int), false)
        | some n => if n = 0 then ((1001 : Int), false) else (n, false) := rfl
    rcases hp : parseIntJS (jsTrimChars data.data) with _ | n
    · have hval : initializeVMId (some data) = (1001, false) := by rw [hbody, hp]
      rw [hval]
      refine ⟨by decide, by simp, ?_, fun d hd _ => rfl⟩
      intro d m hdm hpm hm0
      obtain rfl := Option.some.inj hdm
      rw [hp] at hpm
      exact absurd hpm (by simp)
    · by_cases hn : n = 0
      · subst hn
        have hval : initializeVMId (some data) = (1001, false) := by
          rw [hbody, hp]
          exact if_pos rfl
        rw [hval]
        refine ⟨by decide, by simp, ?_, fun d hd _ => rfl⟩
        intro d m hdm hpm hm0
        obtain rfl := Option.some.inj hdm
        rw [hp] at hpm
        exact absurd (Option.some.inj hpm).symm hm0
      · have hval : initializeVMId (some data) = (n, false) := by
          rw [hbody, hp]
          exact if_neg hn
        rw [hval]
        refine ⟨hn, by simp, ?_, ?_⟩
        · intro d m hdm hpm hm0
          obtain rfl := Option.some.inj hdm
          rw [hp] at hpm
          exact Option.some.inj hpm
        · intro d hdm hbad
          obtain rfl := Option.some.inj hdm
          rw [hp] at hbad
          rcases hbad with hbad | hbad
          · exact absurd hbad (by simp)
          · exact absurd (Option.some.inj hbad) hn

/-- Witness for C10's amended claim: `"2000"` initializes the counter to
2000 with no write-back, `"0"` falls back to the seed 1001. -/
theorem initializeVMId_characterization_witness :
    (initializeVMId (some "2000")).1 = 2000 ∧ (initializeVMId (some "0")).1 = 1001 :=
  ⟨(initializeVMId_characterization (some "2000")).2.2.1 "2000" 2000 rfl (by decide) (by decide),
    (initializeVMId_characterization (some "0")).2.2.2 "0" rfl (Or.inr (by decide))⟩

/-! ## The tiered cache refresh (C7) -/

/-- C7 counterexample: the local-enumeration tier (tier 2, `qm list`)
assigns the same 30 s lifetime as the cluster tier, not a medium TTL
strictly between the filesystem tier's 15 s and the cluster tier's 30 s:
starting from the expired initial state, a tier-1 success and a tier-2
success produce the same expiry, and `30000 < 30000` is false. -/
theorem tier2_ttl_equals_tier1 :
    (refreshVMCache 0 (.ok [1100]) (.error ()) (.error ()) ⟨none, 0⟩).1.cacheExpiry = 30000 ∧
      (refreshVMCache 0 (.error ()) (.ok [1100]) (.error ()) ⟨none, 0⟩).1.cacheExpiry = 30000 ∧
      ¬ ((30000 : Int) < 30000) :=
  ⟨by decide, by decide, by decide⟩

/-- C7 amended: the tiers are attempted in order cluster → local
enumeration → filesystem scan, first success wins; the cluster tier and
the local-enumeration tier both assign the 30 s TTL (the code gives tier 2
`CACHE_TTL`, the same as tier 1, not a strictly intermediate value), the
filesystem tier assigns 15 s, and if all three fail the cache is treated
as empty with the next expiry 5 s ahead. -/
theorem refresh_tier_order_and_ttls (now : Int) (t1 t2 t3 : Except Unit (List Int)) :
    (∀ vms, t1 = .ok vms →
      refreshVMCache now t1 t2 t3 ⟨none, 0⟩ = (⟨some vms, now + 30000⟩, [1])) ∧
      (∀ e vms, t1 = .error e → t2 = .ok vms →
        refreshVMCache now t1 t2 t3 ⟨none, 0⟩ = (⟨some vms, now + 30000⟩, [1, 2])) ∧
      (∀ e e2 vms, t1 = .error e → t2 = .error e2 → t3 = .ok vms →
        refreshVMCache now t1 t2 t3 ⟨none, 0⟩ = (⟨some vms, now + 15000⟩, [1, 2, 3])) ∧
      (∀ e e2 e3, t1 = .error e → t2 = .error e2 → t3 = .error e3 →
        refreshVMCache now t1 t2 t3 ⟨none, 0⟩ = (⟨some [], now + 5000⟩, [1, 2, 3])) := by
  refine ⟨?_, ?_, ?_, ?_⟩
  · rintro vms rfl
    simp [refreshVMCache, CACHE_TTL]
  · rintro e vms rfl rfl
    simp [refreshVMCache, CACHE_TTL]
  · rintro e e2 vms rfl rfl rfl
    simp [refreshVMCache, CACHE_TTL]
  · rintro e e2 e3 rfl rfl rfl
    simp [refreshVMCache]

/-- Witness for C7's amended claim: with tiers 1 and 2 failing and tier 3
reporting `[7]`, the cache holds `[7]` with a 15 s lifetime after all
three tiers were attempted. -/
theorem refresh_tier_order_and_ttls_witness :
    refreshVMCache 0 (.error ()) (.error ()) (.ok [7]) ⟨none, 0⟩ =
      (⟨some [7], 0 + 15000⟩, [1, 2, 3]) :=
  (refresh_tier_order_and_ttls 0 (.error ()) (.error ()) (.ok [7])).2.2.1 () () [7] rfl rfl rfl

/-! ## VLAN precedence (C4) -/

/-- C4: the resolved VLAN follows the three-layer precedence — a defined
request-level `network.vlan` wins, else a defined template-level
`network.vlan`, else the global default — and on the concrete triples of
the claim: request 100 / template 50 / default 1 resolves to 100, no
request VLAN resolves to 50, and neither resolves to 1. -/
theorem resolved_vlan_three_layer_precedence :
    (∀ (opts : ProvisionOptions) (template : TemplateConfig) (defaults : DefaultsConfig),
      (resolveConfig opts template defaults).network.vlan =
        specVlanPrecedence (opts.network.bind RequestNetwork.vlan)
          (template.network.bind TemplateNetwork.vlan) defaults.network.vlan) ∧
      (resolveConfig exOptsVlan100 exTemplateVlan50 exDefaults).network.vlan = 100 ∧
      (resolveConfig exOpts exTemplateVlan50 exDefaults).network.vlan = 50 ∧
      (resolveConfig exOpts exTemplate exDefaults).network.vlan = 1 := by
  refine ⟨?_, by decide, by decide, by decide⟩
  intro opts template defaults
  simp only [resolveConfig, finalNetworkConfig, getNetworkConfig, specVlanPrecedence, requestVlan]
  cases hon : opts.network with
  | none =>
    cases hot : template.network with
    | none => simp
    | some tn => cases htv : tn.vlan <;> simp
  | some rn =>
    cases hrv : rn.vlan with
    | none =>
      cases hot : template.network with
      | none => simp
      | some tn => cases htv : tn.vlan <;> simp
    | some v =>
      cases hot : template.network with
      | none => simp
      | some tn => cases htv : tn.vlan <;> simp

/-! ## Disk resize condition (C6) -/

/-- C6 counterexample: with the global default `disk_size = ""` and no
request-level size, the resolved disk size is `""` — different from the
template's built-in default `"20G"` — and yet no resize command is issued,
because the guard `config.diskSize && config.diskSize !== "20G"` rejects
the falsy empty string.  So "resize iff the resolved size differs from
the default" is false as stated. -/
theorem disk_resize_skipped_on_empty :
    (resolveConfig exOpts exTemplate exDefaultsEmptyDisk).diskSize ≠ "20G" ∧
      ∀ s, Cmd.resizeDisk 1001 s ∉
        configureCmds 1001 (resolveConfig exOpts exTemplate exDefaultsEmptyDisk) := by
  refine ⟨by decide, ?_⟩
  intro s h
  have heval : configureCmds 1001 (resolveConfig exOpts exTemplate exDefaultsEmptyDisk) =
      [Cmd.setCpuMem 1001 2 2048, Cmd.setNet 1001 "virtio,bridge=vmbr0"] := by decide
  rw [heval] at h
  simp at h

/-- C6 amended: during Configure, a disk resize is issued iff the
resolved disk size is truthy (non-empty) *and* differs from the
hard-coded template default `"20G"`; in particular a resolved size equal
to the default issues no resize, and an issued resize always uses the
resolved size. -/
theorem disk_resize_iff_truthy_and_nondefault (vmid : Int) (cfg : FinalConfig) :
    ((∃ s, Cmd.resizeDisk vmid s ∈ configureCmds vmid cfg) ↔
      (cfg.diskSize ≠ "" ∧ cfg.diskSize ≠ "20G")) ∧
      ∀ s, Cmd.resizeDisk vmid s ∈ configureCmds vmid cfg → s = cfg.diskSize := by
  unfold configureCmds
  by_cases h : cfg.diskSize ≠ "" ∧ cfg.diskSize ≠ "20G"
  · rw [if_pos h]
    refine ⟨⟨fun _ => h, fun _ => ⟨cfg.diskSize, by simp⟩⟩, ?_⟩
    intro s hs
    simpa using hs
  · rw [if_neg h]
    refine ⟨⟨?_, fun hc => absurd hc h⟩, ?_⟩
    · rintro ⟨s, hs⟩
      simp at hs
    · intro s hs
      simp at hs

/-- Witness for C6's amended claim: a request asking for `"40G"` issues a
resize, and the resolved size is non-empty and differs from `"20G"`. -/
theorem disk_resize_iff_truthy_and_nondefault_witness :
    (∃ s, Cmd.resizeDisk 1001 s ∈
      configureCmds 1001 (resolveConfig exOptsDisk40 exTemplate exDefaults)) ∧
      (resolveConfig exOptsDisk40 exTemplate exDefaults).diskSize ≠ "" ∧
      (resolveConfig exOptsDisk40 exTemplate exDefaults).diskSize ≠ "20G" :=
  ⟨(disk_resize_iff_truthy_and_nondefault 1001
      (resolveConfig exOptsDisk40 exTemplate exDefaults)).1.mpr ⟨by decide, by decide⟩,
    by decide, by decide⟩

/-! ## Early failures issue no commands (C9) -/

/-- C9: a provisioning run that fails with the allocator's exhaustion
error or with `TemplateNotFound` issues no external command at all — the
call log is empty, so in particular no clone/configure/cloud-init/start
and no rollback stop/destroy — and the error is returned directly.  (Both
failures happen before the `try` block of `provisionVM`.) -/
theorem early_errors_issue_no_commands (env : Cmd → Except String String)
    (templateLookup : Option TemplateConfig) (defaults : DefaultsConfig)
    (opts : ProvisionOptions) :
    (∀ (a : Nat) (s : Int), provisionVM env (.exhausted a s) templateLookup defaults opts =
      ([], .error (.allocationExhausted a s))) ∧
      ∀ vmid : Int, provisionVM env (.ok vmid) none defaults opts =
        ([], .error (.templateNotFound opts.os)) :=
  ⟨fun _ _ => rfl, fun _ => rfl⟩

/-! ## Compensating rollback (C3) -/

/-- The executor's call log is a subset of the commands the pipeline was
asked to run. -/
theorem runPipeline_trace_subset (env : Cmd → Except String String) :
    ∀ (cmds : List Cmd) (c : Cmd), c ∈ (runPipeline env cmds).1 → c ∈ cmds := by
  intro cmds
  induction cmds with
  | nil =>
    intro c hc
    simp [runPipeline] at hc
  | cons a rest ih =>
    intro c hc
    rw [runPipeline] at hc
    cases henv : env a with
    | ok out =>
      rw [henv] at hc
      rcases hrec : runPipeline env rest with ⟨tr, r⟩
      rw [hrec] at hc
      rcases List.mem_cons.mp hc with rfl | hc'
      · exact List.mem_cons_self _ _
      · exact List.mem_cons_of_mem _ (ih c (by rw [hrec]; exact hc'))
    | error e =>
      rw [henv] at hc
      rcases List.mem_cons.mp hc with rfl | hc'
      · exact List.mem_cons_self _ _
      · simp at hc'

/-- None of the commands of the forward pipeline (clone, configure,
cloud-init, start) is a rollback command. -/
theorem pipelineCmds_no_rollback (vmid : Int) (template : TemplateConfig) (cfg : FinalConfig) :
    (pipelineCmds vmid template cfg).all (fun c => !c.isRollback) = true := by
  unfold pipelineCmds configureCmds cloudInitCmds
  cases hsk : cfg.sshKey with
  | none =>
    by_cases h1 : cfg.diskSize ≠ "" ∧ cfg.diskSize ≠ "20G" <;>
      simp [h1, Cmd.isRollback]
  | some k =>
    by_cases h1 : cfg.diskSize ≠ "" ∧ cfg.diskSize ≠ "20G" <;>
      by_cases h2 : k = "" <;>
        simp [h1, h2, Cmd.isRollback]

/-- C3: whenever a provisioning run with a resolved template fails with a
`CommandError` (i.e., some step from Clone onward failed), the call log
ends with exactly one stop followed by exactly one destroy against the
allocated identifier — each counted exactly once over the whole log — and
the error returned is the original error of the first failing step, not a
rollback outcome (the rollback commands carry `|| true`, so they cannot
override it). -/
theorem provisionVM_rollback_exactly_once (env : Cmd → Except String String)
    (vmid : Int) (template : TemplateConfig) (defaults : DefaultsConfig)
    (opts : ProvisionOptions) (tr : List Cmd) (e : String)
    (h : provisionVM env (.ok vmid) (some template) defaults opts = (tr, .error (.command e))) :
    tr.count (Cmd.stopRollback vmid) = 1 ∧ tr.count (Cmd.destroyRollback vmid) = 1 ∧
      ∃ tr0, tr = tr0 ++ [Cmd.stopRollback vmid, Cmd.destroyRollback vmid] ∧
        runPipeline env (pipelineCmds vmid template (resolveConfig opts template defaults)) =
          (tr0, some e) := by
  simp only [provisionVM] at h
  rcases hrun : runPipeline env (pipelineCmds vmid template (resolveConfig opts template defaults))
    with ⟨tr0, res⟩
  rw [hrun] at h
  cases res with
  | none => simp at h
  | some e' =>
    simp only [Prod.mk.injEq, Except.error.injEq, ProvisionError.command.injEq] at h
    obtain ⟨htr, rfl⟩ := h
    have hnotin : ∀ c : Cmd, c.isRollback = true → c ∉ tr0 := by
      intro c hc hin
      have hmem := runPipeline_trace_subset env _ c (by rw [hrun]; exact hin)
      have hall := pipelineCmds_no_rollback vmid template (resolveConfig opts template defaults)
      rw [List.all_eq_true] at hall
      have hfalse := hall c hmem
      rw [hc] at hfalse
      simp at hfalse
    subst htr
    refine ⟨?_, ?_, tr0, rfl, rfl⟩
    · rw [List.count_append,
        List.count_eq_zero.mpr (hnotin (Cmd.stopRollback vmid) rfl)]
      simp
    · rw [List.count_append,
        List.count_eq_zero.mpr (hnotin (Cmd.destroyRollback vmid) rfl)]
      simp

/-- Witness for C3: under the executor that fails the cores/memory
command, the run with template id 9000 and vmid 1001 logs clone, the
failing configure command, then stop and destroy exactly once each, and
returns the configure error. -/
theorem provisionVM_rollback_exactly_once_witness :
    exTrC3.count (Cmd.stopRollback 1001) = 1 ∧ exTrC3.count (Cmd.destroyRollback 1001) = 1 ∧
      ∃ tr0, exTrC3 = tr0 ++ [Cmd.stopRollback 1001, Cmd.destroyRollback 1001] ∧
        runPipeline exFailConfigureEnv
          (pipelineCmds 1001 exTemplate (resolveConfig exOpts exTemplate exDefaults)) =
          (tr0, some "configure failed") :=
  provisionVM_rollback_exactly_once exFailConfigureEnv 1001 exTemplate exDefaults exOpts
    exTrC3 "configure failed" (by rfl)

/-! ## Concurrent allocations can collide (C1) -/

/-- C1 demonstration: `getNextVMId` holds no lock, so two concurrent
calls interleaving at the `await` points can both read counter 1001,
both probe 1001 before either advances the counter, and both return
1001.  Schedule: task 0 reads the counter and starts its probe, task 1
does the same, task 0's probe resolves ("free") and it returns 1001,
then task 1's probe resolves ("free") and it also returns 1001 — the
returned identifiers are not pairwise distinct. -/
theorem concurrent_allocations_can_collide :
    (runSched (fun _ => false) [false, true, false, false, true, true]
      { shared := { nextId := 1001, cache := [] },
        task0 := .notStarted, task1 := .notStarted }).task0 = .done 1001 ∧
      (runSched (fun _ => false) [false, true, false, false, true, true]
        { shared := { nextId := 1001, cache := [] },
          task0 := .notStarted, task1 := .notStarted }).task1 = .done 1001 :=
  ⟨by decide, by decide⟩

end PVE
